import Mathlib

/-!
Shallow embedding of `skilletlib/skillet/panos.py` (class `PanosSkillet`).

Python dicts with string keys and string values are modelled as association
lists (`Ctx`); `dict.get`, membership tests and item assignment are modelled
by `lookupKey`, `hasKey` and `setKey`.  The external `Panoply` device-session
capability is modelled by a record exposing exactly the surface the code
uses: `connected` and `get_configuration`.  Network activity (opening an
online session, fetching the configuration) and logging are made observable
through explicit counters/flags in the result records, so that "no network
call" and "logged a failure" become provable statements.  Exceptions are
modelled with `Except`.
-/

set_option autoImplicit false

namespace Skilletlib

/-- A Python `dict` with string keys and values, as an association list. -/
abbrev Ctx := List (String × String)

/-- `d.get(k, None)`: first binding of `k`, if any. -/
def lookupKey : Ctx → String → Option String
  | [], _ => none
  | (k', v) :: rest, k => if k' = k then some v else lookupKey rest k

/-- `k in d`: membership test on keys. -/
def hasKey (ctx : Ctx) (k : String) : Bool :=
  (lookupKey ctx k).isSome

/-- `d[k] = v`: replace the binding of `k` in place, or append it. -/
def setKey : Ctx → String → String → Ctx
  | [], k, v => [(k, v)]
  | (k', v') :: rest, k, v =>
      if k' = k then (k, v) :: rest else (k', v') :: setKey rest k v

@[simp]
theorem lookupKey_setKey_self (ctx : Ctx) (k v : String) :
    lookupKey (setKey ctx k v) k = some v := by
  induction ctx with
  | nil => simp [setKey, lookupKey]
  | cons p rest ih =>
      obtain ⟨k', v'⟩ := p
      by_cases h : k' = k <;> simp [setKey, lookupKey, h, ih]

@[simp]
theorem lookupKey_setKey_ne (ctx : Ctx) (k v k₂ : String) (hne : k₂ ≠ k) :
    lookupKey (setKey ctx k v) k₂ = lookupKey ctx k₂ := by
  have hk : ¬ (k = k₂) := fun h => hne h.symm
  induction ctx with
  | nil => simp [setKey, lookupKey, hk]
  | cons p rest ih =>
      obtain ⟨k', v'⟩ := p
      by_cases h : k' = k
      · subst h
        simp [setKey, lookupKey, hk]
      · simp [setKey, lookupKey, h, ih]

/-- Keys of `setKey ctx k v` are the keys of `ctx` together with `k`. -/
theorem hasKey_setKey (ctx : Ctx) (k v k₂ : String) :
    hasKey (setKey ctx k v) k₂ = (hasKey ctx k₂ || (k₂ = k : Bool)) := by
  by_cases h : k₂ = k
  · subst h; simp [hasKey]
  · simp [hasKey, lookupKey_setKey_ne ctx k v k₂ h, h]

/-- Errors raised by the skillet code: `SkilletValidationException` and
`SkilletLoaderException`, each carrying its message. -/
inductive SkErr where
  | validation (msg : String)
  | loader (msg : String)
deriving DecidableEq, Repr

/-- The external `Panoply` device-session capability, reduced to the narrow
contract the skillet code consumes: a `connected` flag and the configuration
document that `get_configuration()` returns. -/
structure Panoply where
  connected : Bool
  configuration : String
deriving DecidableEq, Repr

/-- `panoply.get_configuration()`. -/
def Panoply.get_configuration (p : Panoply) : String :=
  p.configuration

/-- Modelled from the spec: the `Panoply()` offline constructor lives in
`skilletlib/panoply.py`, which is not part of the sources here.  Section 6 of
the design gives its contract: the offline constructor yields a placeholder
with no network activity, and `connected` is "true iff a live, authenticated
session exists" — so an offline placeholder reports `connected = false`. -/
def Panoply.offline : Panoply :=
  { connected := false, configuration := "" }

/-- The online `Panoply(hostname=..., api_username=..., api_password=...,
api_port=...)` constructor is an external collaborator; a model of it is an
arbitrary function from the four arguments to a capability. -/
abbrev OnlineCtor := Option String → Option String → Option String → String → Panoply

def online_required_fields : List String :=
  ["panos_hostname", "panos_username", "panos_password"]

def offline_required_fields : List String :=
  ["config"]

/-- `fields.issubset(ctx)`: every field occurs among the keys of `ctx`. -/
def issubset (fields : List String) (ctx : Ctx) : Bool :=
  fields.all (fun f => hasKey ctx f)

/-- Observable outcome of one `initialize_context` call: the returned
context (or the exception raised), the `self.panoply` attribute after the
call, and counters for the network operations performed (`get_configuration`
calls and online-session constructions). -/
structure InitOutcome where
  result : Except SkErr Ctx
  panoply : Option Panoply
  getConfigCalls : Nat
  onlineConstructions : Nat

/-- `PanosSkillet.initialize_context`, translated clause by clause from
`panos.py`.  `ctor` models the external online `Panoply` constructor and
`panoply` models the current `self.panoply` attribute (`none` = Python
`None`).  The caller's `initial_context` is copied (`context = dict();
context.update(initial_context)`), never written to. -/
def initialize_context (ctor : OnlineCtor) (panoply : Option Panoply)
    (initial_context : Ctx) : InitOutcome :=
  let context := initial_context
  match panoply with
  | none =>
      if ¬ issubset online_required_fields initial_context
          ∧ ¬ issubset offline_required_fields initial_context then
        { result := .error (.validation
            "Required fields for panos skillet not found in context!"),
          panoply := none, getConfigCalls := 0, onlineConstructions := 0 }
      else if issubset online_required_fields initial_context then
        let hostname := lookupKey initial_context "panos_hostname"
        let username := lookupKey initial_context "panos_username"
        let password := lookupKey initial_context "panos_password"
        let port := (lookupKey initial_context "panos_port").getD "443"
        let p := ctor hostname username password port
        { result := .ok (setKey context "config" p.get_configuration),
          panoply := some p, getConfigCalls := 1, onlineConstructions := 1 }
      else
        -- logger.info offline mode detected; init panoply in offline mode
        { result := .ok context,
          panoply := some Panoply.offline,
          getConfigCalls := 0, onlineConstructions := 0 }
  | some p =>
      if p.connected then
        { result := .ok (setKey context "config" p.get_configuration),
          panoply := some p, getConfigCalls := 1, onlineConstructions := 0 }
      else
        { result := .error (.loader
            "Could not get configuration as Panoply is not connected!"),
          panoply := some p, getConfigCalls := 0, onlineConstructions := 0 }

/-- A snippet definition is a dict like the context: keys `name`, `cmd`,
`element`, `file`. -/
abbrev SnippetDef := List (String × String)

/-- The read-only file system: contents of the file at a resolved path, or
`none` when no such file exists.  `Path.joinpath(...).resolve()` is modelled
by string concatenation of the base directory and the relative name. -/
abbrev FileSystem := String → Option String

/-- Observable outcome of one `load_element` call: the returned definition
(or the exception raised), and whether `logger.error` recorded a failure to
find the referenced file. -/
structure LoadOutcome where
  result : Except SkErr SnippetDef
  loggedMissingFile : Bool

/-- `PanosSkillet.load_element`, translated clause by clause from `panos.py`:
when `element` is absent or empty, a missing `file` key raises a
`SkilletLoaderException` naming the snippet; a `file` whose resolved path
does not exist is logged and the definition returned as is; otherwise the
file's text becomes `element`. -/
def load_element (fs : FileSystem) (snippet_def : SnippetDef)
    (snippet_path : String) : LoadOutcome :=
  if (lookupKey snippet_def "element").isNone
      ∨ lookupKey snippet_def "element" = some "" then
    if ¬ hasKey snippet_def "file" then
      { result := .error (.loader
          ("YAMLError: Could not parse metadata file for snippet "
            ++ (lookupKey snippet_def "name").getD "")),
        loggedMissingFile := false }
    else
      let snippet_file :=
        snippet_path ++ "/" ++ (lookupKey snippet_def "file").getD ""
      match fs snippet_file with
      | some content =>
          { result := .ok (setKey snippet_def "element" content),
            loggedMissingFile := false }
      | none =>
          -- logger.error: could not load the referenced file
          { result := .ok snippet_def, loggedMissingFile := true }
  else
    { result := .ok snippet_def, loggedMissingFile := false }

/-- An executable `PanosSnippet`: the (possibly resolved) definition paired
with the skillet's `Panoply` capability. -/
structure PanosSnippet where
  definition : SnippetDef
  panoply : Option Panoply
deriving Repr

/-- The per-definition step of `get_snippets`: definitions with no `cmd` key
or with `cmd == "set"` go through `load_element`; all others pass through
unresolved. -/
def resolveDef (fs : FileSystem) (snippet_path : String)
    (snippet_def : SnippetDef) : Except SkErr SnippetDef :=
  if ¬ hasKey snippet_def "cmd" ∨ lookupKey snippet_def "cmd" = some "set" then
    (load_element fs snippet_def snippet_path).result
  else
    .ok snippet_def

/-- `PanosSkillet.get_snippets`: walk `self.snippet_stack` in order, resolve
each definition via `load_element` when applicable, and wrap each with the
capability.  An exception raised while resolving a definition propagates and
stops the iteration, as in Python. -/
def get_snippets (fs : FileSystem) (snippet_path : String)
    (panoply : Option Panoply) :
    List SnippetDef → Except SkErr (List PanosSnippet)
  | [] => .ok []
  | snippet_def :: rest =>
      match resolveDef fs snippet_path snippet_def with
      | .error e => .error e
      | .ok resolved =>
          match get_snippets fs snippet_path panoply rest with
          | .error e => .error e
          | .ok snippet_list =>
              .ok ({ definition := resolved, panoply := panoply }
                    :: snippet_list)

/-! ## Helper lemmas -/

theorem issubset_online_of_fields (ictx : Ctx) (h u w : String)
    (hh : lookupKey ictx "panos_hostname" = some h)
    (hu : lookupKey ictx "panos_username" = some u)
    (hw : lookupKey ictx "panos_password" = some w) :
    issubset online_required_fields ictx = true := by
  simp [issubset, online_required_fields, hasKey, hh, hu, hw]

theorem issubset_offline_of_config (ictx : Ctx) (cfg : String)
    (hcfg : lookupKey ictx "config" = some cfg) :
    issubset offline_required_fields ictx = true := by
  simp [issubset, offline_required_fields, hasKey, hcfg]

/-! ## Claims about `initialize_context` -/

/-- C1: with no externally supplied capability, any input mapping carrying
the three online-required fields selects online mode (the `config` key may
also be present): a new online capability is constructed from those fields
with port defaulting to `"443"`, and the returned context's `config` key is
that capability's `get_configuration()`; no offline field is required. -/
theorem online_mode_priority (ctor : OnlineCtor) (ictx : Ctx)
    (h u w : String)
    (hh : lookupKey ictx "panos_hostname" = some h)
    (hu : lookupKey ictx "panos_username" = some u)
    (hw : lookupKey ictx "panos_password" = some w) :
    (initialize_context ctor none ictx).panoply =
      some (ctor (some h) (some u) (some w)
        ((lookupKey ictx "panos_port").getD "443")) ∧
    (initialize_context ctor none ictx).result =
      .ok (setKey ictx "config"
        (ctor (some h) (some u) (some w)
          ((lookupKey ictx "panos_port").getD "443")).get_configuration) ∧
    (∀ c, (initialize_context ctor none ictx).result = .ok c →
        lookupKey c "config" =
          some (ctor (some h) (some u) (some w)
            ((lookupKey ictx "panos_port").getD "443")).get_configuration) ∧
    (initialize_context ctor none ictx).onlineConstructions = 1 := by
  have hsub := issubset_online_of_fields ictx h u w hh hu hw
  refine ⟨?_, ?_, ?_, ?_⟩ <;>
    simp [initialize_context, hsub, hh, hu, hw]

/-- A mock online constructor: always connected, fixed configuration. -/
def ctorMock : OnlineCtor :=
  fun _ _ _ _ => { connected := true, configuration := "<config/>" }

/-- Inputs carrying the online field set and a stale `config`. -/
def ictxOnline : Ctx :=
  [("panos_hostname", "fw.local"), ("panos_username", "admin"),
   ("panos_password", "secret"), ("config", "<stale/>")]

theorem online_mode_priority_witness :
    lookupKey ictxOnline "panos_hostname" = some "fw.local" ∧
    lookupKey ictxOnline "config" = some "<stale/>" ∧
    (initialize_context ctorMock none ictxOnline).result =
      .ok [("panos_hostname", "fw.local"), ("panos_username", "admin"),
           ("panos_password", "secret"), ("config", "<config/>")] :=
  ⟨rfl, rfl,
    (online_mode_priority ctorMock ictxOnline "fw.local" "admin" "secret"
      rfl rfl rfl).2.1⟩

/-- C2: with no externally supplied capability, an input mapping that lacks
at least one online-required field but carries `config` yields offline mode:
the offline placeholder capability is stored, no network operation happens,
and the returned context (in particular its `config` value) is exactly the
input mapping. -/
theorem offline_mode_preserves_config (ctor : OnlineCtor) (ictx : Ctx)
    (cfg : String)
    (hon : issubset online_required_fields ictx = false)
    (hcfg : lookupKey ictx "config" = some cfg) :
    (initialize_context ctor none ictx).result = .ok ictx ∧
    (∀ c, (initialize_context ctor none ictx).result = .ok c →
        lookupKey c "config" = some cfg) ∧
    (initialize_context ctor none ictx).panoply = some Panoply.offline ∧
    (initialize_context ctor none ictx).getConfigCalls = 0 ∧
    (initialize_context ctor none ictx).onlineConstructions = 0 := by
  have hoff := issubset_offline_of_config ictx cfg hcfg
  refine ⟨?_, ?_, ?_, ?_, ?_⟩ <;>
    simp [initialize_context, hon, hoff]
  exact hcfg

/-- Offline-only inputs. -/
def ictxOffline : Ctx := [("config", "<config><x/></config>")]

theorem offline_mode_preserves_config_witness :
    issubset online_required_fields ictxOffline = false ∧
    lookupKey ictxOffline "config" = some "<config><x/></config>" ∧
    (initialize_context ctorMock none ictxOffline).result = .ok ictxOffline ∧
    (initialize_context ctorMock none ictxOffline).getConfigCalls = 0 :=
  ⟨rfl, rfl,
    (offline_mode_preserves_config ctorMock ictxOffline "<config><x/></config>"
      rfl rfl).1,
    (offline_mode_preserves_config ctorMock ictxOffline "<config><x/></config>"
      rfl rfl).2.2.2.1⟩

/-- C3: a capability supplied externally that reports `connected = false`
makes `initialize_context` raise the loader error, for every input mapping:
`get_configuration` is never called, no online session is constructed, and
there is no offline fallback (the stored capability is unchanged). -/
theorem disconnected_capability_loader_error (ctor : OnlineCtor)
    (p : Panoply) (ictx : Ctx) (hconn : p.connected = false) :
    (initialize_context ctor (some p) ictx).result =
      .error (.loader
        "Could not get configuration as Panoply is not connected!") ∧
    (initialize_context ctor (some p) ictx).getConfigCalls = 0 ∧
    (initialize_context ctor (some p) ictx).onlineConstructions = 0 ∧
    (initialize_context ctor (some p) ictx).panoply = some p := by
  refine ⟨?_, ?_, ?_, ?_⟩ <;> simp [initialize_context, hconn]

/-- A disconnected capability. -/
def disconnectedPanoply : Panoply :=
  { connected := false, configuration := "" }

theorem disconnected_capability_loader_error_witness :
    disconnectedPanoply.connected = false ∧
    (initialize_context ctorMock (some disconnectedPanoply) ictxOnline).result =
      .error (.loader
        "Could not get configuration as Panoply is not connected!") ∧
    (initialize_context ctorMock (some disconnectedPanoply)
        ictxOnline).getConfigCalls = 0 :=
  ⟨rfl,
    (disconnected_capability_loader_error ctorMock disconnectedPanoply
      ictxOnline rfl).1,
    (disconnected_capability_loader_error ctorMock disconnectedPanoply
      ictxOnline rfl).2.1⟩

/-- C4: with no externally supplied capability, an input mapping missing at
least one online-required field and also lacking `config` makes
`initialize_context` raise the validation error (not a loader error), with
no capability constructed and no network operation performed. -/
theorem missing_fields_validation_error (ctor : OnlineCtor) (ictx : Ctx)
    (hon : issubset online_required_fields ictx = false)
    (hoff : issubset offline_required_fields ictx = false) :
    (initialize_context ctor none ictx).result =
      .error (.validation
        "Required fields for panos skillet not found in context!") ∧
    (initialize_context ctor none ictx).panoply = none ∧
    (initialize_context ctor none ictx).getConfigCalls = 0 ∧
    (initialize_context ctor none ictx).onlineConstructions = 0 ∧
    (∀ m, (initialize_context ctor none ictx).result ≠
      .error (.loader m)) := by
  refine ⟨?_, ?_, ?_, ?_, ?_⟩ <;> simp [initialize_context, hon, hoff]

/-- Inputs satisfying neither required field set. -/
def ictxBad : Ctx := [("panos_hostname", "fw.local")]

theorem missing_fields_validation_error_witness :
    issubset online_required_fields ictxBad = false ∧
    issubset offline_required_fields ictxBad = false ∧
    (initialize_context ctorMock none ictxBad).result =
      .error (.validation
        "Required fields for panos skillet not found in context!") ∧
    (initialize_context ctorMock none ictxBad).getConfigCalls = 0 :=
  ⟨rfl, rfl,
    (missing_fields_validation_error ctorMock ictxBad rfl rfl).1,
    (missing_fields_validation_error ctorMock ictxBad rfl rfl).2.2.1⟩

/-- Whenever `initialize_context` returns a context, that context is either
the copied inputs themselves or the copied inputs with `config` re-bound. -/
theorem initialize_context_ok_shape (ctor : OnlineCtor) (pan : Option Panoply)
    (ictx : Ctx) (c : Ctx)
    (hres : (initialize_context ctor pan ictx).result = .ok c) :
    c = ictx ∨ ∃ v, c = setKey ictx "config" v := by
  cases pan with
  | none =>
      simp only [initialize_context] at hres
      split at hres
      · exact absurd hres (by simp)
      · split at hres
        · exact Or.inr ⟨_, (Except.ok.inj hres).symm⟩
        · exact Or.inl (Except.ok.inj hres).symm
  | some p =>
      simp only [initialize_context] at hres
      split at hres
      · exact Or.inr ⟨_, (Except.ok.inj hres).symm⟩
      · exact absurd hres (by simp)

/-- C9: the context returned by `initialize_context` is the union of the
caller's inputs plus the keys set during resolution: every key other than
`config` is bound exactly as in the inputs, every input key is still
present, and any key present in the result was an input key or is `config`.
The caller's mapping itself is a pure value here, never written to: the
source copies it (`context = dict(); context.update(initial_context)`) and
only ever assigns into the copy, on success and error paths alike. -/
theorem initialize_context_frame (ctor : OnlineCtor) (pan : Option Panoply)
    (ictx : Ctx) (c : Ctx)
    (hres : (initialize_context ctor pan ictx).result = .ok c) :
    (∀ k, k ≠ "config" → lookupKey c k = lookupKey ictx k) ∧
    (∀ k, hasKey ictx k = true → hasKey c k = true) ∧
    (∀ k, hasKey c k = true → hasKey ictx k = true ∨ k = "config") := by
  rcases initialize_context_ok_shape ctor pan ictx c hres with hc | ⟨v, hc⟩
  · subst hc
    exact ⟨fun _ _ => rfl, fun _ hk => hk, fun _ hk => Or.inl hk⟩
  · subst hc
    refine ⟨fun k hk => lookupKey_setKey_ne ictx "config" v k hk, ?_, ?_⟩
    · intro k hk
      rw [hasKey_setKey]
      simp [hk]
    · intro k hk
      rw [hasKey_setKey] at hk
      rcases Bool.or_eq_true_iff.mp hk with hk | hk
      · exact Or.inl hk
      · exact Or.inr (by simpa using hk)

theorem initialize_context_frame_witness :
    (initialize_context ctorMock none ictxOnline).result =
      .ok [("panos_hostname", "fw.local"), ("panos_username", "admin"),
           ("panos_password", "secret"), ("config", "<config/>")] ∧
    lookupKey [("panos_hostname", "fw.local"), ("panos_username", "admin"),
        ("panos_password", "secret"), ("config", "<config/>")]
      "panos_username" = lookupKey ictxOnline "panos_username" :=
  ⟨rfl,
    (initialize_context_frame ctorMock none ictxOnline
      [("panos_hostname", "fw.local"), ("panos_username", "admin"),
       ("panos_password", "secret"), ("config", "<config/>")] rfl).1
      "panos_username" (by simp)⟩

/-- C10: `initialize_context` is stateful across calls on one instance.  A
first successful offline call stores the offline placeholder capability, and
a second call finds it stored and takes the supplied-capability branch: the
required-field sets are never re-checked (no validation error is possible
with a stored capability), and since the offline placeholder reports
`connected = false`, the second call with the very same valid offline
inputs raises the loader error instead of re-entering offline mode. -/
theorem initialize_context_stateful_across_calls (ctor : OnlineCtor)
    (ictx : Ctx) (cfg : String)
    (hon : issubset online_required_fields ictx = false)
    (hcfg : lookupKey ictx "config" = some cfg) :
    (initialize_context ctor none ictx).result = .ok ictx ∧
    (initialize_context ctor none ictx).panoply = some Panoply.offline ∧
    Panoply.offline.connected = false ∧
    (initialize_context ctor
        ((initialize_context ctor none ictx).panoply) ictx).result =
      .error (.loader
        "Could not get configuration as Panoply is not connected!") ∧
    (∀ p : Panoply, ∀ ictx₂ : Ctx, ∀ m : String,
        (initialize_context ctor (some p) ictx₂).result ≠
          .error (.validation m)) := by
  have hoff := issubset_offline_of_config ictx cfg hcfg
  refine ⟨?_, ?_, rfl, ?_, ?_⟩
  · simp [initialize_context, hon, hoff]
  · simp [initialize_context, hon, hoff]
  · simp [initialize_context, hon, hoff, Panoply.offline]
  · intro p ictx₂ m
    by_cases hp : p.connected = true <;>
      simp [initialize_context, hp]

theorem initialize_context_stateful_across_calls_witness :
    issubset online_required_fields ictxOffline = false ∧
    lookupKey ictxOffline "config" = some "<config><x/></config>" ∧
    (initialize_context ctorMock none ictxOffline).result = .ok ictxOffline ∧
    (initialize_context ctorMock
        ((initialize_context ctorMock none ictxOffline).panoply)
        ictxOffline).result =
      .error (.loader
        "Could not get configuration as Panoply is not connected!") :=
  ⟨rfl, rfl,
    (initialize_context_stateful_across_calls ctorMock ictxOffline
      "<config><x/></config>" rfl rfl).1,
    (initialize_context_stateful_across_calls ctorMock ictxOffline
      "<config><x/></config>" rfl rfl).2.2.2.1⟩

/-! ## Computation lemmas for `load_element` -/

theorem load_element_no_file (fs : FileSystem) (d : SnippetDef) (path : String)
    (hel : (lookupKey d "element").isNone = true
      ∨ lookupKey d "element" = some "")
    (hkey : hasKey d "file" = false) :
    load_element fs d path =
      { result := .error (.loader
          ("YAMLError: Could not parse metadata file for snippet "
            ++ (lookupKey d "name").getD "")),
        loggedMissingFile := false } := by
  unfold load_element
  rw [if_pos hel, if_pos (by simp [hkey])]

theorem load_element_file_missing (fs : FileSystem) (d : SnippetDef)
    (path f : String)
    (hel : (lookupKey d "element").isNone = true
      ∨ lookupKey d "element" = some "")
    (hf : lookupKey d "file" = some f)
    (hfs : fs (path ++ "/" ++ f) = none) :
    load_element fs d path = { result := .ok d, loggedMissingFile := true } := by
  unfold load_element
  rw [if_pos hel, if_neg (by simp [hasKey, hf])]
  simp [hf, hfs]

theorem load_element_file_found (fs : FileSystem) (d : SnippetDef)
    (path f content : String)
    (hel : (lookupKey d "element").isNone = true
      ∨ lookupKey d "element" = some "")
    (hf : lookupKey d "file" = some f)
    (hfs : fs (path ++ "/" ++ f) = some content) :
    load_element fs d path =
      { result := .ok (setKey d "element" content),
        loggedMissingFile := false } := by
  unfold load_element
  rw [if_pos hel, if_neg (by simp [hasKey, hf])]
  simp [hf, hfs]

theorem load_element_inline (fs : FileSystem) (d : SnippetDef)
    (path e : String)
    (he : lookupKey d "element" = some e) (hne : e ≠ "") :
    load_element fs d path =
      { result := .ok d, loggedMissingFile := false } := by
  unfold load_element
  rw [if_neg (by simp [he, hne])]

/-! ## Claims about `load_element` and `get_snippets` -/

/-- C8: a definition whose `element` is already present and non-empty passes
through `load_element` unchanged — no exception, no log — whatever the
`file` key or the file system say; applying the resolver to it is an
idempotent no-op. -/
theorem load_element_inline_noop (fs : FileSystem) (path : String)
    (d : SnippetDef) (e : String)
    (he : lookupKey d "element" = some e) (hne : e ≠ "") :
    load_element fs d path =
      { result := .ok d, loggedMissingFile := false } :=
  load_element_inline fs d path e he hne

/-- A definition with both an inline `element` and a `file` key. -/
def dInlineFile : SnippetDef :=
  [("name", "s4"), ("element", "<b/>"), ("file", "also.xml")]

/-- The empty file system: no path exists. -/
def fsEmpty : FileSystem := fun _ => none

theorem load_element_inline_noop_witness :
    lookupKey dInlineFile "element" = some "<b/>" ∧
    load_element fsEmpty dInlineFile "skillet" =
      { result := .ok dInlineFile, loggedMissingFile := false } :=
  ⟨rfl, load_element_inline_noop fsEmpty "skillet" dInlineFile "<b/>" rfl
    (by decide)⟩

/-- C6: for a definition carrying a `name` whose `element` is absent or
empty, `load_element` raises exactly when the `file` key is missing, and the
exception is a loader error naming the snippet; when a `file` key is present
but the resolved path does not exist, it instead returns the definition
unchanged (so `element` is still absent) and logs, without raising. -/
theorem load_element_missing_file_policy (fs : FileSystem) (d : SnippetDef)
    (path nm : String)
    (hname : lookupKey d "name" = some nm)
    (helem : lookupKey d "element" = none ∨ lookupKey d "element" = some "") :
    ((∃ m, (load_element fs d path).result = .error m) ↔
        lookupKey d "file" = none) ∧
    (lookupKey d "file" = none →
        (load_element fs d path).result = .error (.loader
          ("YAMLError: Could not parse metadata file for snippet " ++ nm))) ∧
    (∀ f, lookupKey d "file" = some f → fs (path ++ "/" ++ f) = none →
        (load_element fs d path).result = .ok d ∧
        (load_element fs d path).loggedMissingFile = true) := by
  have hel : (lookupKey d "element").isNone = true
      ∨ lookupKey d "element" = some "" := by
    rcases helem with h | h
    · exact Or.inl (by simp [h])
    · exact Or.inr h
  cases hf : lookupKey d "file" with
  | none =>
      have hkey : hasKey d "file" = false := by simp [hasKey, hf]
      rw [load_element_no_file fs d path hel hkey]
      refine ⟨⟨fun _ => rfl, fun _ => ⟨_, rfl⟩⟩, fun _ => ?_, ?_⟩
      · simp [hname]
      · intro f hf₂
        exact absurd hf₂ (by simp)
  | some f =>
      cases hfs : fs (path ++ "/" ++ f) with
      | none =>
          rw [load_element_file_missing fs d path f hel hf hfs]
          refine ⟨⟨?_, ?_⟩, ?_, ?_⟩
          · rintro ⟨m, hm⟩
            exact absurd hm (by simp)
          · intro h
            exact absurd h (by simp)
          · intro h
            exact absurd h (by simp)
          · intro f₂ hf₂ _
            injection hf₂ with h
            subst h
            exact ⟨rfl, rfl⟩
      | some content =>
          rw [load_element_file_found fs d path f content hel hf hfs]
          refine ⟨⟨?_, ?_⟩, ?_, ?_⟩
          · rintro ⟨m, hm⟩
            exact absurd hm (by simp)
          · intro h
            exact absurd h (by simp)
          · intro h
            exact absurd h (by simp)
          · intro f₂ hf₂ hfs₂
            injection hf₂ with h
            subst h
            rw [hfs] at hfs₂
            exact absurd hfs₂ (by simp)

/-- A definition with neither `element` nor `file`. -/
def dNoFile : SnippetDef := [("name", "s1")]

theorem load_element_missing_file_policy_witness :
    lookupKey dNoFile "name" = some "s1" ∧
    lookupKey dNoFile "element" = none ∧
    (load_element fsEmpty dNoFile "skillet").result = .error (.loader
      ("YAMLError: Could not parse metadata file for snippet " ++ "s1")) :=
  ⟨rfl, rfl,
    (load_element_missing_file_policy fsEmpty dNoFile "skillet" "s1" rfl
      (Or.inl rfl)).2.1 rfl⟩

/-- A definition with no `cmd` key referencing the file `f.xml`. -/
def dEmptyFile : SnippetDef := [("name", "s5"), ("file", "f.xml")]

/-- A file system on which `skillet/f.xml` exists but is empty. -/
def fsEmptyContent : FileSystem :=
  fun p => if p = "skillet/f.xml" then some "" else none

/-- C7 counterexample: a definition with no `cmd` key whose referenced file
exists but is empty passes through `load_element` without raising, yet ends
with an empty `element` and with no missing-file failure logged — the
claimed disjunction fails. -/
theorem load_element_element_invariant_counterexample :
    lookupKey dEmptyFile "cmd" = none ∧
    (load_element fsEmptyContent dEmptyFile "skillet").result =
      .ok (setKey dEmptyFile "element" "") ∧
    ¬ ((∃ e, lookupKey (setKey dEmptyFile "element" "") "element" = some e
          ∧ e ≠ "")
        ∨ (load_element fsEmptyContent dEmptyFile
            "skillet").loggedMissingFile = true) := by
  refine ⟨rfl, rfl, ?_⟩
  rintro (⟨e, he, hne⟩ | hlog)
  · have h0 : lookupKey (setKey dEmptyFile "element" "") "element" = some "" :=
      rfl
    rw [h0] at he
    exact hne (Option.some.inj he).symm
  · have h0 : (load_element fsEmptyContent dEmptyFile
        "skillet").loggedMissingFile = false := rfl
    rw [h0] at hlog
    exact Bool.false_ne_true hlog

/-- C7 amended: for a definition with no `cmd` key or `cmd == "set"`, after
`load_element` returns without raising, either the resulting `element` is
non-empty, or a failure to find the referenced file was logged, or the
referenced file exists with empty content (and `element` was set to that
empty text). -/
theorem load_element_element_invariant (fs : FileSystem) (path : String)
    (d d' : SnippetDef)
    (hcmd : lookupKey d "cmd" = none ∨ lookupKey d "cmd" = some "set")
    (hok : (load_element fs d path).result = .ok d') :
    (∃ e, lookupKey d' "element" = some e ∧ e ≠ "") ∨
    (load_element fs d path).loggedMissingFile = true ∨
    (∃ f, lookupKey d "file" = some f ∧ fs (path ++ "/" ++ f) = some "") := by
  by_cases hel : ((lookupKey d "element").isNone = true
      ∨ lookupKey d "element" = some "")
  · cases hf : lookupKey d "file" with
    | none =>
        have hkey : hasKey d "file" = false := by simp [hasKey, hf]
        rw [load_element_no_file fs d path hel hkey] at hok
        exact absurd hok (by simp)
    | some f =>
        cases hfs : fs (path ++ "/" ++ f) with
        | none =>
            rw [load_element_file_missing fs d path f hel hf hfs]
            exact Or.inr (Or.inl rfl)
        | some content =>
            rw [load_element_file_found fs d path f content hel hf hfs] at hok
            have hd : setKey d "element" content = d' := Except.ok.inj hok
            subst hd
            by_cases hc : content = ""
            · subst hc
              exact Or.inr (Or.inr ⟨f, rfl, hfs⟩)
            · exact Or.inl
                ⟨content, lookupKey_setKey_self d "element" content, hc⟩
  · push_neg at hel
    obtain ⟨h1, h2⟩ := hel
    cases he : lookupKey d "element" with
    | none =>
        rw [he] at h1
        exact absurd rfl h1
    | some e =>
        have hne : e ≠ "" := by
          intro h
          subst h
          rw [he] at h2
          exact h2 rfl
        rw [load_element_inline fs d path e he hne] at hok
        have hd : d = d' := Except.ok.inj hok
        subst hd
        exact Or.inl ⟨e, he, hne⟩

/-- A definition with an inline non-empty `element` and no `cmd`. -/
def dInline : SnippetDef := [("name", "s2"), ("element", "<a/>")]

theorem load_element_element_invariant_witness :
    lookupKey dInline "cmd" = none ∧
    (load_element fsEmpty dInline "skillet").result = .ok dInline ∧
    ((∃ e, lookupKey dInline "element" = some e ∧ e ≠ "") ∨
      (load_element fsEmpty dInline "skillet").loggedMissingFile = true ∨
      (∃ f, lookupKey dInline "file" = some f
        ∧ fsEmpty ("skillet" ++ "/" ++ f) = some "")) :=
  ⟨rfl, rfl,
    load_element_element_invariant fsEmpty "skillet" dInline dInline
      (Or.inl rfl) rfl⟩

/-- Characterization of a successful `get_snippets`: one output per input,
at the same index, wrapping the resolved definition with the capability. -/
theorem get_snippets_ok_spec (fs : FileSystem) (path : String)
    (pan : Option Panoply) (stack : List SnippetDef)
    (snips : List PanosSnippet)
    (hok : get_snippets fs path pan stack = .ok snips) :
    snips.length = stack.length ∧
    ∀ (i : Nat) (d : SnippetDef), stack[i]? = some d →
      ∃ s : PanosSnippet, snips[i]? = some s ∧ s.panoply = pan ∧
        resolveDef fs path d = .ok s.definition := by
  induction stack generalizing snips with
  | nil =>
      simp only [get_snippets] at hok
      injection hok with h
      subst h
      refine ⟨rfl, ?_⟩
      intro i d hd
      simp at hd
  | cons d0 rest ih =>
      simp only [get_snippets] at hok
      cases hres : resolveDef fs path d0 with
      | error e =>
          rw [hres] at hok
          simp at hok
      | ok resolved =>
          rw [hres] at hok
          cases hrest : get_snippets fs path pan rest with
          | error e =>
              rw [hrest] at hok
              simp at hok
          | ok l =>
              rw [hrest] at hok
              simp only at hok
              injection hok with h
              subst h
              obtain ⟨ihlen, ihidx⟩ := ih l hrest
              refine ⟨by simp [ihlen], ?_⟩
              intro i d hd
              cases i with
              | zero =>
                  simp at hd
                  subst hd
                  exact ⟨⟨resolved, pan⟩, by simp, rfl, hres⟩
              | succ n =>
                  simp only [List.getElem?_cons_succ] at hd ⊢
                  exact ihidx n d hd

/-- C5: whenever `get_snippets` returns, it returns exactly one executable
snippet per definition of the stack, at the same index, each paired with the
active capability and holding the definition as the resolver left it; a
definition whose `cmd` is present and differs from `"set"` is passed through
unresolved.  Soft failures of content resolution return `.ok`, so they never
drop a definition (only the hard `load_element` exception stops the walk). -/
theorem get_snippets_order_preservation (fs : FileSystem) (path : String)
    (pan : Option Panoply) (stack : List SnippetDef)
    (snips : List PanosSnippet)
    (hok : get_snippets fs path pan stack = .ok snips) :
    snips.length = stack.length ∧
    (∀ (i : Nat) (d : SnippetDef), stack[i]? = some d →
        ∃ s : PanosSnippet, snips[i]? = some s ∧ s.panoply = pan ∧
          resolveDef fs path d = .ok s.definition) ∧
    (∀ (i : Nat) (d : SnippetDef) (c : String), stack[i]? = some d →
        lookupKey d "cmd" = some c → c ≠ "set" →
        snips[i]? = some { definition := d, panoply := pan }) := by
  obtain ⟨hlen, hidx⟩ := get_snippets_ok_spec fs path pan stack snips hok
  refine ⟨hlen, hidx, ?_⟩
  intro i d c hd hc hcne
  obtain ⟨s, hs, hpan, hresolve⟩ := hidx i d hd
  have hpass : resolveDef fs path d = .ok d := by
    simp [resolveDef, hasKey, hc, hcne]
  rw [hpass] at hresolve
  obtain ⟨sdef, span⟩ := s
  have hdef : d = sdef := Except.ok.inj hresolve
  subst hdef
  subst hpan
  exact hs

/-- A stack mixing a non-`set` command, an inline element and a definition
whose referenced file is missing. -/
def stackMixed : List SnippetDef :=
  [[("name", "s1"), ("cmd", "op")], dInline, dEmptyFile]

theorem get_snippets_order_preservation_witness :
    (∃ snips, get_snippets fsEmpty "skillet" none stackMixed = .ok snips
      ∧ snips.length = stackMixed.length) ∧
    (load_element fsEmpty dEmptyFile "skillet").loggedMissingFile = true :=
  ⟨⟨_, rfl,
    (get_snippets_order_preservation fsEmpty "skillet" none stackMixed _
      rfl).1⟩, rfl⟩

end Skilletlib
